import Mathlib

/-!
Shallow embedding of the custom Node.js load tester (`load-test.js`) of the
Spring Boot vs Bun+Hono benchmark suite, together with theorems settling the
specification claims about it.  Line numbers in doc comments refer to the
source file as it appears in the repository.

The tester issues timed HTTP requests (`makeRequest`), paces them during a
phase (`runTest`, `runWarmup`), selects scenarios from a weighted table, and
reduces every phase to summary statistics (`calculateStats`, `percentile`).
Network nondeterminism is made explicit: each dispatched request is driven by
the `NetEvent` it encounters, and each phase by the list of settled outcomes
of its dispatched requests.  JavaScript numeric quirks that matter to the
claims (NaN from `0/0`, the `|| 0` fallback on a missing field) are modeled
by `JSNum` and `jsOrDefault`; all other arithmetic is exact rational
arithmetic.
-/

namespace LoadTest

/-- IEEE-style value of a JavaScript arithmetic expression over rationals: a
finite rational, NaN, or a signed infinity.  Needed because the tester
computes `errorCount / requestCount` without guarding `requestCount = 0`. -/
inductive JSNum where
  | num (q : ℚ)
  | nan
  | posInf
  | negInf
deriving DecidableEq, Repr

/-- JavaScript division `a / b` on rational-valued numbers: `0/0` is NaN,
`x/0` for nonzero `x` is a signed infinity, otherwise exact division. -/
def jsDiv (a b : ℚ) : JSNum :=
  if b = 0 then
    if a = 0 then JSNum.nan
    else if 0 < a then JSNum.posInf
    else JSNum.negInf
  else JSNum.num (a / b)

/-- JavaScript multiplication of an intermediate value by a finite constant
(the `* 100` of the error-rate expression): NaN propagates, an infinity times
a nonzero constant keeps or flips its sign, an infinity times zero is NaN. -/
def jsMul (x : JSNum) (c : ℚ) : JSNum :=
  match x with
  | JSNum.num q => JSNum.num (q * c)
  | JSNum.nan => JSNum.nan
  | JSNum.posInf =>
      if c = 0 then JSNum.nan else if 0 < c then JSNum.posInf else JSNum.negInf
  | JSNum.negInf =>
      if c = 0 then JSNum.nan else if 0 < c then JSNum.negInf else JSNum.posInf

/-- JavaScript `x || d` on an optionally-present numeric field: an absent field and the
falsy value `0` both fall back to the default (lines 117 and 267). -/
def jsOrDefault (x : Option ℚ) (d : ℚ) : ℚ :=
  match x with
  | none => d
  | some t => if t = 0 then d else t

/-- The tester configuration (constructor, lines 43-57).  Defaults are
`duration = 60`, `warmupDuration = 180`, `warmupTPS = 1000`; `timeout` is
never set by the shipped configurations, so line 117 reads it through
`this.config.timeout || 30000`. -/
structure Config where
  baseUrl : String := "http://localhost:8080"
  duration : ℚ := 60
  warmupDuration : ℚ := 180
  warmupTPS : ℚ := 1000
  timeout : Option ℚ := none
deriving DecidableEq, Repr

/-- The configuration produced by `new LoadTester({...})` in `main`
(lines 400-404): all defaults, with the explicit values coinciding with the
defaults. -/
def defaultConfig : Config := {}

/-- What the transport reports for one issued request: a complete HTTP
response (status code, body, measured elapsed milliseconds), a request error
event with its message, or the request timeout event. -/
inductive NetEvent where
  | response (statusCode : ℕ) (body : String) (elapsed : ℚ)
  | connError (msg : String) (elapsed : ℚ)
  | timedOut
deriving DecidableEq, Repr

/-- The object `makeRequest` resolves with (lines 93-98). -/
structure ResolvedResult where
  statusCode : ℕ
  responseTime : ℚ
  body : String
  success : Bool
deriving DecidableEq, Repr

/-- The object `makeRequest` rejects with (lines 106-110 and 115-119). -/
structure RejectedResult where
  error : String
  responseTime : ℚ
  success : Bool
deriving DecidableEq, Repr

/-- The request executor `makeRequest` (lines 59-128) as a function of the network event its
single request encounters.  On a response it resolves (`Except.ok`) with
`success = statusCode >= 200 && statusCode < 300` (line 97); on a request
error it rejects (`Except.error`) with the error message and the elapsed
time; on timeout it rejects with `"Request timeout"` and
`config.timeout || 30000`. -/
def makeRequest (cfg : Config) (ev : NetEvent) : Except RejectedResult ResolvedResult :=
  match ev with
  | NetEvent.response status body elapsed =>
      Except.ok { statusCode := status, responseTime := elapsed, body := body,
                  success := decide (200 ≤ status) && decide (status < 300) }
  | NetEvent.connError msg elapsed =>
      Except.error { error := msg, responseTime := elapsed, success := false }
  | NetEvent.timedOut =>
      Except.error { error := "Request timeout",
                     responseTime := jsOrDefault cfg.timeout 30000, success := false }

/-- A settled request promise as observed by the phase handlers
(lines 256-269): a fulfilled result, or a rejection value whose
`responseTime` field may be absent (a rejection built by `makeRequest`
always carries one, but a synchronous throw inside the promise executor
carries none). -/
inductive Settled where
  | resolved (r : ResolvedResult)
  | rejected (responseTime : Option ℚ)
deriving DecidableEq, Repr

/-- View a settled `makeRequest` promise as the phase handlers receive it. -/
def settleRequest (x : Except RejectedResult ResolvedResult) : Settled :=
  match x with
  | Except.ok r => Settled.resolved r
  | Except.error e => Settled.rejected (some e.responseTime)

/-- Holds (`true`) iff the settled outcome is a fulfilled result with
`success = true`; every rejection counts as failure. -/
def settledSuccess : Settled → Bool
  | Settled.resolved r => r.success
  | Settled.rejected _ => false

/-- The response time the phase records for one settled request:
`result.responseTime` in the fulfillment handler (line 258),
`error.responseTime || 0` in the rejection handler (line 267). -/
def recordedTime : Settled → ℚ
  | Settled.resolved r => r.responseTime
  | Settled.rejected rt => jsOrDefault rt 0

/-- The per-phase mutable counters of the tester
(`requestCount`, `errorCount`, `responseTimes`). -/
structure PhaseState where
  requestCount : ℕ
  errorCount : ℕ
  responseTimes : List ℚ
deriving DecidableEq, Repr

/-- One settled request updating the phase counters, exactly as the
then/catch handlers of `runTest` do (lines 256-269): both paths increment
`requestCount` and append one response time; `errorCount` increments on
`success = false` fulfillments and on every rejection. -/
def recordOutcome (st : PhaseState) (o : Settled) : PhaseState :=
  match o with
  | Settled.resolved r =>
      { requestCount := st.requestCount + 1
        errorCount := if r.success then st.errorCount else st.errorCount + 1
        responseTimes := st.responseTimes ++ [r.responseTime] }
  | Settled.rejected rt =>
      { requestCount := st.requestCount + 1
        errorCount := st.errorCount + 1
        responseTimes := st.responseTimes ++ [jsOrDefault rt 0] }

/-- Line 284, `this.responseTimes.sort((a, b) => a - b)`: ascending numeric
sort. -/
def sortTimes (l : List ℚ) : List ℚ := List.insertionSort (· ≤ ·) l

/-- The method `percentile` (lines 328-331): nearest-rank index
`Math.ceil((p / 100) * n) - 1`, clamped into `[0, n-1]`, read from the
ascending-sorted response-time array. -/
def percentile (p : ℚ) (times : List ℚ) : ℚ :=
  let n : ℤ := times.length
  let index : ℤ := ⌈p / 100 * (times.length : ℚ)⌉ - 1
  times.getD (max 0 (min index (n - 1))).toNat 0

/-- The six derived response-time statistics returned by `calculateStats`. -/
structure Stats where
  avgResponseTime : ℚ
  minResponseTime : ℚ
  maxResponseTime : ℚ
  p50ResponseTime : ℚ
  p95ResponseTime : ℚ
  p99ResponseTime : ℚ
deriving DecidableEq, Repr

/-- The method `calculateStats` (lines 303-326) over the already-sorted response times:
all six statistics are 0 when the collection is empty; otherwise the average
is the sum divided by the count, min/max are the first/last sorted entries,
and p50/p95/p99 come from `percentile`. -/
def calculateStats (times : List ℚ) : Stats :=
  if times.length = 0 then
    { avgResponseTime := 0, minResponseTime := 0, maxResponseTime := 0,
      p50ResponseTime := 0, p95ResponseTime := 0, p99ResponseTime := 0 }
  else
    { avgResponseTime := times.foldl (· + ·) 0 / (times.length : ℚ)
      minResponseTime := times.getD 0 0
      maxResponseTime := times.getD (times.length - 1) 0
      p50ResponseTime := percentile 50 times
      p95ResponseTime := percentile 95 times
      p99ResponseTime := percentile 99 times }

/-- One phase summary pushed onto `this.results` (lines 287-295), with the
`...stats` spread inlined. -/
structure PhaseResult where
  testName : String
  targetTPS : ℚ
  actualTPS : JSNum
  totalRequests : ℕ
  errorCount : ℕ
  errorRate : JSNum
  avgResponseTime : ℚ
  minResponseTime : ℚ
  maxResponseTime : ℚ
  p50ResponseTime : ℚ
  p95ResponseTime : ℚ
  p99ResponseTime : ℚ
deriving DecidableEq, Repr

/-- The LoadTester instance state: configuration, the accumulated results
list, and the per-phase counters. -/
structure Tester where
  config : Config
  results : List PhaseResult
  requestCount : ℕ
  errorCount : ℕ
  responseTimes : List ℚ
  isRunning : Bool
deriving DecidableEq, Repr

/-- A freshly constructed `LoadTester` (constructor, lines 43-57). -/
def Tester.new (cfg : Config) : Tester :=
  { config := cfg, results := [], requestCount := 0, errorCount := 0,
    responseTimes := [], isRunning := false }

/-- The summary record `runTest` computes for one phase (lines 284-295),
as a function of the settled outcomes of the requests the phase dispatched:
fold every outcome through the handlers starting from the reset counters,
sort the collected times, compute the statistics, and assemble the record.
`errorRate` is `(errorCount / requestCount) * 100` with JavaScript
semantics, so it is NaN when no request was dispatched. -/
def phaseSummary (cfg : Config) (tps : ℚ) (testName : String)
    (outcomes : List Settled) : PhaseResult :=
  let st := outcomes.foldl recordOutcome
      { requestCount := 0, errorCount := 0, responseTimes := [] }
  let sorted := sortTimes st.responseTimes
  let stats := calculateStats sorted
  { testName := testName
    targetTPS := tps
    actualTPS := jsDiv (st.requestCount : ℚ) cfg.duration
    totalRequests := st.requestCount
    errorCount := st.errorCount
    errorRate := jsMul (jsDiv (st.errorCount : ℚ) (st.requestCount : ℚ)) 100
    avgResponseTime := stats.avgResponseTime
    minResponseTime := stats.minResponseTime
    maxResponseTime := stats.maxResponseTime
    p50ResponseTime := stats.p50ResponseTime
    p95ResponseTime := stats.p95ResponseTime
    p99ResponseTime := stats.p99ResponseTime }

/-- The phase runner `runTest` (lines 213-301) as a function of the settled outcomes of the
requests the phase dispatched: reset the per-phase counters (lines 216-219),
accumulate every settled outcome through the handlers, sort the collected
times in place, and push the computed summary onto `results`. -/
def runTest (t : Tester) (tps : ℚ) (testName : String)
    (outcomes : List Settled) : Tester :=
  let st := outcomes.foldl recordOutcome
      { requestCount := 0, errorCount := 0, responseTimes := [] }
  { t with
    requestCount := st.requestCount
    errorCount := st.errorCount
    responseTimes := sortTimes st.responseTimes
    isRunning := true
    results := t.results ++ [phaseSummary t.config tps testName outcomes] }

/-- One request scenario (endpoint, method, selection weight), lines 228-234
and 140-145.  The POST payload objects of the source (carrying a
`Math.random()` id) influence neither table construction nor selection and
are not modeled. -/
structure Scenario where
  endpoint : String
  method : String
  weight : ℕ
deriving DecidableEq, Repr

/-- The measured-phase scenario mix (lines 228-234). -/
def scenarios : List Scenario :=
  [ { endpoint := "/health", method := "GET", weight := 30 },
    { endpoint := "/users/123", method := "GET", weight := 25 },
    { endpoint := "/echo", method := "POST", weight := 25 },
    { endpoint := "/compute", method := "GET", weight := 15 },
    { endpoint := "/stats", method := "GET", weight := 5 } ]

/-- The warmup scenario mix (lines 140-145). -/
def warmupScenarios : List Scenario :=
  [ { endpoint := "/health", method := "GET", weight := 40 },
    { endpoint := "/users/123", method := "GET", weight := 30 },
    { endpoint := "/echo", method := "POST", weight := 20 },
    { endpoint := "/stats", method := "GET", weight := 10 } ]

/-- The weighted scenario array (lines 237-242 and 148-153): each scenario is
pushed `weight` times, in list order. -/
def buildWeighted (ss : List Scenario) : List Scenario :=
  ss.foldl (fun acc s => acc ++ List.replicate s.weight s) []

/-- Scenario selection (lines 252 and 167):
`weightedScenarios[Math.floor(Math.random() * weightedScenarios.length)]`,
with the `Math.random()` draw `r ∈ [0, 1)` made explicit; out-of-range
indexing yields `none` (the undefined value). -/
def selectScenario (table : List Scenario) (r : ℚ) : Option Scenario :=
  table.get? (⌊r * (table.length : ℚ)⌋).toNat

/-- The local warmup counters of `runWarmup` (lines 155-156). -/
structure WarmupReport where
  warmupRequestCount : ℕ
  warmupErrorCount : ℕ
deriving DecidableEq, Repr

/-- One settled warmup request updating the local warmup counters
(lines 170-182): both paths increment the request count; the error count
increments on `success = false` fulfillments and on every rejection. -/
def recordWarmupOutcome (w : ℕ × ℕ) (o : Settled) : ℕ × ℕ :=
  match o with
  | Settled.resolved r => (w.1 + 1, if r.success then w.2 else w.2 + 1)
  | Settled.rejected _ => (w.1 + 1, w.2 + 1)

/-- The warmup runner `runWarmup` (lines 130-211): accumulates its request and error counts in
local variables only and logs them; it assigns to none of the instance
fields, so the tester state it returns is the one it was given. -/
def runWarmup (t : Tester) (outcomes : List Settled) : Tester × WarmupReport :=
  let w := outcomes.foldl recordWarmupOutcome (0, 0)
  (t, { warmupRequestCount := w.1, warmupErrorCount := w.2 })

/-- The swept TPS levels (line 348). -/
def tpsLevels : List ℕ := [5, 10, 15, 30, 40, 100, 1000]

/-- The sweep loop of `runFullBenchmark` (lines 356-364): one `runTest` per
TPS level in order, with only a cooldown pause (no state change) between
levels.  `outs i` is the settled-outcome list of the i-th remaining phase. -/
def runSweep (t : Tester) (levels : List ℕ) (outs : ℕ → List Settled) : Tester :=
  match levels with
  | [] => t
  | tps :: rest =>
      runSweep (runTest t (tps : ℚ) (toString tps ++ "TPS") (outs 0)) rest
        (fun i => outs (i + 1))

/-- The orchestrator `runFullBenchmark` (lines 346-367): set the base URL, run the warmup
(whose report is only logged), then sweep the TPS levels. -/
def runFullBenchmark (t : Tester) (baseUrl : String) (warmupOuts : List Settled)
    (outs : ℕ → List Settled) : Tester :=
  let t1 := { t with config := { t.config with baseUrl := baseUrl } }
  let t2 := (runWarmup t1 warmupOuts).1
  runSweep t2 tpsLevels outs

/-- Modelled from the spec, for comparison with `runSweep`: the ordered list
of per-phase results in which each swept level is summarized independently,
from only its own phase outcomes and freshly reset counters (spec 4.5:
one `PhaseResult` per target rate, appended in sweep order, with no
cross-phase state leakage). -/
def sweepResults (cfg : Config) (levels : List ℕ) (outs : ℕ → List Settled) :
    List PhaseResult :=
  match levels with
  | [] => []
  | tps :: rest =>
      phaseSummary cfg (tps : ℚ) (toString tps ++ "TPS") (outs 0)
        :: sweepResults cfg rest (fun i => outs (i + 1))

/-! ### Helper lemmas -/

/-- Accumulating settled outcomes through the phase handlers: the request
count grows by one per outcome, the error count by the number of failed
outcomes, and exactly one response time is appended per outcome. -/
theorem foldl_recordOutcome (os : List Settled) (st : PhaseState) :
    (os.foldl recordOutcome st).requestCount = st.requestCount + os.length ∧
    (os.foldl recordOutcome st).errorCount
      = st.errorCount + os.countP (fun o => ! settledSuccess o) ∧
    (os.foldl recordOutcome st).responseTimes
      = st.responseTimes ++ os.map recordedTime := by
  induction os generalizing st with
  | nil => simp
  | cons o rest ih =>
      obtain ⟨h1, h2, h3⟩ := ih (recordOutcome st o)
      refine ⟨?_, ?_, ?_⟩
      · rw [List.foldl_cons, h1]
        cases o <;> simp [recordOutcome] <;> omega
      · rw [List.foldl_cons, h2]
        cases o with
        | resolved r =>
            cases hr : r.success <;>
              simp [recordOutcome, settledSuccess, hr, List.countP_cons] <;> omega
        | rejected rt =>
            simp [recordOutcome, settledSuccess, List.countP_cons]
            omega
      · rw [List.foldl_cons, h3]
        cases o <;> simp [recordOutcome, recordedTime]

/-- Lemma: `runTest` appends exactly the phase summary of its own outcomes to the
results list. -/
theorem runTest_results (t : Tester) (tps : ℚ) (testName : String)
    (os : List Settled) :
    (runTest t tps testName os).results
      = t.results ++ [phaseSummary t.config tps testName os] := rfl

/-- Lemma: `runTest` leaves the configuration unchanged. -/
theorem runTest_config (t : Tester) (tps : ℚ) (testName : String)
    (os : List Settled) :
    (runTest t tps testName os).config = t.config := rfl

/-- The sweep loop refines the specification-side list of independent
per-phase summaries. -/
theorem runSweep_results (levels : List ℕ) (t : Tester) (outs : ℕ → List Settled) :
    (runSweep t levels outs).results
      = t.results ++ sweepResults t.config levels outs := by
  induction levels generalizing t outs with
  | nil => simp [runSweep, sweepResults]
  | cons tps rest ih =>
      rw [runSweep, sweepResults, ih, runTest_results, runTest_config]
      simp

/-- Evaluating `percentile` once the ceiling has been computed. -/
theorem percentile_eval (p : ℚ) (l : List ℚ) (k : ℤ)
    (hk : ⌈p / 100 * (l.length : ℚ)⌉ = k) :
    percentile p l = l.getD (max 0 (min (k - 1) ((l.length : ℤ) - 1))).toNat 0 := by
  simp [percentile, hk]

/-- Over a nonempty collection, `percentile 100` reads the last entry. -/
theorem percentile_hundred (l : List ℚ) (h : l ≠ []) :
    percentile 100 l = l.getD (l.length - 1) 0 := by
  have hn : 0 < l.length := List.length_pos.mpr h
  have hval : (100 : ℚ) / 100 * (l.length : ℚ) = (l.length : ℚ) := by norm_num
  have hk : ⌈(100 : ℚ) / 100 * (l.length : ℚ)⌉ = (l.length : ℤ) := by
    rw [hval]
    exact_mod_cast Int.ceil_natCast l.length
  rw [percentile_eval 100 l _ hk]
  congr 1
  omega

/-- The last entry of a nonempty list is one of its members. -/
theorem getD_last_mem (l : List ℚ) (h : l ≠ []) : l.getD (l.length - 1) 0 ∈ l := by
  have hn : 0 < l.length := List.length_pos.mpr h
  have hlast : l.length - 1 < l.length := by omega
  rw [List.getD_eq_getElem?_getD, List.getElem?_eq_getElem hlast]
  exact List.getElem_mem hlast

/-- In an ascending-sorted list, every member is at most the last entry. -/
theorem sorted_le_last (l : List ℚ) (h : l.Sorted (· ≤ ·)) (x : ℚ) (hx : x ∈ l) :
    x ≤ l.getD (l.length - 1) 0 := by
  obtain ⟨i, rfl⟩ := List.mem_iff_get.mp hx
  have hn : 0 < l.length := lt_of_le_of_lt (Nat.zero_le _) i.isLt
  have hlast : l.length - 1 < l.length := by omega
  rw [List.getD_eq_getElem?_getD, List.getElem?_eq_getElem hlast]
  have hle : i ≤ (⟨l.length - 1, hlast⟩ : Fin l.length) := by
    rcases i with ⟨iv, hiv⟩
    simp only [Fin.mk_le_mk]
    omega
  have := h.rel_get_of_le hle
  simpa using this

/-- Over a single-element collection, every percentile between 0 and 100
reads that element. -/
theorem percentile_singleton (a p : ℚ) (h0 : 0 ≤ p) (h1 : p ≤ 100) :
    percentile p [a] = a := by
  have hlen : (([a] : List ℚ).length : ℚ) = 1 := by simp
  have hle : p / 100 * (([a] : List ℚ).length : ℚ) ≤ 1 := by
    rw [hlen, mul_one, div_le_one (by norm_num : (0 : ℚ) < 100)]
    exact h1
  have hge : (0 : ℚ) ≤ p / 100 * (([a] : List ℚ).length : ℚ) := by
    rw [hlen, mul_one]
    positivity
  have hkl : ⌈p / 100 * (([a] : List ℚ).length : ℚ)⌉ ≤ 1 :=
    Int.ceil_le.mpr (by exact_mod_cast hle)
  have hkg : (0 : ℤ) ≤ ⌈p / 100 * (([a] : List ℚ).length : ℚ)⌉ :=
    Int.ceil_nonneg hge
  rw [percentile_eval p [a] _ rfl]
  have hidx : (max 0 (min (⌈p / 100 * (([a] : List ℚ).length : ℚ)⌉ - 1)
      ((([a] : List ℚ).length : ℤ) - 1))).toNat = 0 := by
    simp only [List.length_singleton]
    omega
  rw [hidx]
  rfl

/-- The specification-side sweep list has one entry per swept level. -/
theorem sweepResults_length (cfg : Config) (levels : List ℕ)
    (outs : ℕ → List Settled) :
    (sweepResults cfg levels outs).length = levels.length := by
  induction levels generalizing outs with
  | nil => rfl
  | cons tps rest ih => simp [sweepResults, ih]

/-- The specification-side sweep list records the swept levels in order. -/
theorem sweepResults_targetTPS (cfg : Config) (levels : List ℕ)
    (outs : ℕ → List Settled) :
    (sweepResults cfg levels outs).map PhaseResult.targetTPS
      = levels.map (fun tps => (tps : ℚ)) := by
  induction levels generalizing outs with
  | nil => rfl
  | cons tps rest ih => simp [sweepResults, phaseSummary, ih]

/-! ### Claim C1 -/

/-- C1, counterexample: the claim says `success = true` iff the status lies
in `[200, 400)`.  Status 301 lies in that interval, yet `makeRequest`
resolves with `success = false`, because line 97 tests
`statusCode >= 200 && statusCode < 300`. -/
theorem c1_counterexample :
    ((200 ≤ 301 ∧ 301 < 400) ∧
      makeRequest defaultConfig (NetEvent.response 301 "" 5)
        = Except.ok { statusCode := 301, responseTime := 5, body := "",
                      success := false }) := by
  exact ⟨by omega, rfl⟩

/-- C1, amended: for every HTTP response received by `makeRequest`, the
produced result has `success = true` iff the response status code lies in
the half-open interval `[200, 300)` — only 2xx is accepted as success, and
3xx redirects are classified as failures. -/
theorem c1_success_iff_2xx (cfg : Config) (status : ℕ) (body : String)
    (elapsed : ℚ) :
    ∃ r, makeRequest cfg (NetEvent.response status body elapsed) = Except.ok r ∧
      (r.success = true ↔ (200 ≤ status ∧ status < 300)) := by
  refine ⟨_, rfl, ?_⟩
  simp [Bool.and_eq_true, decide_eq_true_iff]

/-! ### Claim C2 -/

/-- C2, counterexample: the claim says `makeRequest` always resolves to a
`RequestResult` and never propagates a rejection past its boundary.  On a
connection-error event it rejects (lines 102-111): the settled value is an
`Except.error`, not a resolution. -/
theorem c2_counterexample :
    makeRequest defaultConfig (NetEvent.connError "connect ECONNREFUSED" 3)
        = Except.error { error := "connect ECONNREFUSED", responseTime := 3,
                         success := false } ∧
      ¬ ∃ r, makeRequest defaultConfig (NetEvent.connError "connect ECONNREFUSED" 3)
          = Except.ok r := by
  refine ⟨rfl, ?_⟩
  rintro ⟨r, hr⟩
  simp [makeRequest] at hr

/-- C2, amended: `makeRequest` always settles, but failure is delivered as a
promise rejection rather than a resolution: on a connection failure it
rejects with the error message, the elapsed duration and `success = false`;
on timeout it rejects with `"Request timeout"`, the configured (or default
30000 ms) timeout duration and `success = false`; and the rejection is
absorbed by the phase's catch handler, so for every network event the caller
records exactly one request outcome and no exception escapes the phase. -/
theorem c2_always_settles (cfg : Config) (msg : String) (elapsed : ℚ) :
    makeRequest cfg (NetEvent.connError msg elapsed)
        = Except.error { error := msg, responseTime := elapsed, success := false } ∧
      makeRequest cfg NetEvent.timedOut
        = Except.error { error := "Request timeout",
                         responseTime := jsOrDefault cfg.timeout 30000,
                         success := false } ∧
      ∀ (ev : NetEvent) (st : PhaseState),
        (recordOutcome st (settleRequest (makeRequest cfg ev))).requestCount
          = st.requestCount + 1 := by
  refine ⟨rfl, rfl, ?_⟩
  intro ev st
  cases ev <;> simp [makeRequest, settleRequest, recordOutcome]

/-! ### Claim C3 -/

/-- C3, counterexample: the claim says a phase that dispatched zero requests
has `errorRate = 100`.  On zero outcomes the computed error rate is
`(0 / 0) * 100`, which is NaN under JavaScript arithmetic — not 100. -/
theorem c3_counterexample :
    (phaseSummary defaultConfig 5 "5TPS" []).errorRate = JSNum.nan ∧
      JSNum.nan ≠ JSNum.num 100 ∧
      (runTest (Tester.new defaultConfig) 5 "5TPS" []).results
        = [phaseSummary defaultConfig 5 "5TPS" []] :=
  ⟨rfl, by simp, rfl⟩

/-- C3, amended: a phase that completes having dispatched zero requests
still produces a well-formed `PhaseResult` record (all response-time
statistics 0, `totalRequests = 0`), and the sweep proceeds through every
remaining level regardless, producing one record per level — but the
record's `errorRate` is NaN (from `0 / 0`), not 100. -/
theorem c3_empty_phase (t : Tester) (tps : ℚ) (testName : String)
    (baseUrl : String) (w : List Settled) (outs : ℕ → List Settled) :
    (runTest t tps testName []).results
        = t.results ++
          [{ testName := testName, targetTPS := tps,
             actualTPS := jsDiv 0 t.config.duration, totalRequests := 0,
             errorCount := 0, errorRate := JSNum.nan, avgResponseTime := 0,
             minResponseTime := 0, maxResponseTime := 0, p50ResponseTime := 0,
             p95ResponseTime := 0, p99ResponseTime := 0 }] ∧
      (runFullBenchmark t baseUrl w outs).results.length
        = t.results.length + tpsLevels.length := by
  constructor
  · rw [runTest_results]
    congr 1
  · have h := runSweep_results tpsLevels
      { t with config := { t.config with baseUrl := baseUrl } } outs
    simp only [runFullBenchmark, runWarmup]
    rw [h]
    simp [sweepResults_length]

/-! ### Claim C4 -/

/-- C4, counterexample: the claim says every derived statistic of the empty
phase summary, `errorRate` included, equals 0.  The six response-time
statistics are 0, but `errorRate` is NaN (from `0 / 0`), not 0. -/
theorem c4_counterexample :
    (phaseSummary defaultConfig 10 "10TPS" []).errorRate = JSNum.nan ∧
      JSNum.nan ≠ JSNum.num 0 :=
  ⟨rfl, by simp⟩

/-- C4, amended: when the collected result sequence is empty, the six
derived response-time statistics (avg, min, max, p50, p95, p99) all equal 0
and no division error or exception is raised — but `errorRate`, computed
separately in `runTest`, is NaN rather than 0. -/
theorem c4_empty_stats (t : Tester) (tps : ℚ) (testName : String) :
    calculateStats []
        = { avgResponseTime := 0, minResponseTime := 0, maxResponseTime := 0,
            p50ResponseTime := 0, p95ResponseTime := 0, p99ResponseTime := 0 } ∧
      ∃ pr, (runTest t tps testName []).results = t.results ++ [pr] ∧
        pr.avgResponseTime = 0 ∧ pr.minResponseTime = 0 ∧ pr.maxResponseTime = 0 ∧
        pr.p50ResponseTime = 0 ∧ pr.p95ResponseTime = 0 ∧ pr.p99ResponseTime = 0 ∧
        pr.errorRate = JSNum.nan := by
  refine ⟨rfl, phaseSummary t.config tps testName [], runTest_results t tps testName [], ?_⟩
  simp [phaseSummary, sortTimes, calculateStats, jsDiv, jsMul, List.insertionSort]

/-! ### Claim C5 -/

/-- C5: with the tester's nearest-rank `percentile`
(index `ceil(p/100 * n) - 1` clamped into `[0, n-1]`), over every nonempty
ascending-sorted sequence `percentile 100` is a member of the sequence that
bounds every member from above (the maximum), and over every single-element
sequence `percentile p` returns that element for every p in `[0, 100]`. -/
theorem c5_percentile :
    (∀ l : List ℚ, l ≠ [] → l.Sorted (· ≤ ·) →
        percentile 100 l ∈ l ∧ ∀ x ∈ l, x ≤ percentile 100 l) ∧
      ∀ a p : ℚ, 0 ≤ p → p ≤ 100 → percentile p [a] = a := by
  constructor
  · intro l hne hs
    rw [percentile_hundred l hne]
    exact ⟨getD_last_mem l hne, fun x hx => sorted_le_last l hs x hx⟩
  · exact fun a p h0 h1 => percentile_singleton a p h0 h1

/-- C5, witness: the percentile facts at the concrete sorted sample `[2, 7]`
and the singleton sample `[9]`. -/
theorem c5_percentile_witness :
    (percentile 100 [(2 : ℚ), 7] ∈ [(2 : ℚ), 7] ∧
        ∀ x ∈ [(2 : ℚ), 7], x ≤ percentile 100 [(2 : ℚ), 7]) ∧
      percentile 50 [(9 : ℚ)] = 9 :=
  ⟨c5_percentile.1 [2, 7] (by simp) (by simp [List.sorted_cons]; norm_num),
   c5_percentile.2 9 50 (by norm_num) (by norm_num)⟩

/-! ### Claim C6 -/

/-- C6: for every phase with at least one settled request, if every settled
outcome is a success the computed `errorRate` is 0, and if every settled
outcome is a failure it is 100. -/
theorem c6_error_rate (t : Tester) (tps : ℚ) (testName : String)
    (os : List Settled) (hne : os ≠ []) :
    ∃ pr, (runTest t tps testName os).results = t.results ++ [pr] ∧
      ((∀ o ∈ os, settledSuccess o = true) → pr.errorRate = JSNum.num 0) ∧
      ((∀ o ∈ os, settledSuccess o = false) → pr.errorRate = JSNum.num 100) := by
  obtain ⟨hreq, herr, -⟩ := foldl_recordOutcome os
    { requestCount := 0, errorCount := 0, responseTimes := [] }
  have hlen : ((os.length : ℕ) : ℚ) ≠ 0 :=
    Nat.cast_ne_zero.mpr (List.length_pos.mpr hne).ne'
  refine ⟨phaseSummary t.config tps testName os, runTest_results t tps testName os,
    ?_, ?_⟩
  · intro hall
    have hcount : os.countP (fun o => ! settledSuccess o) = 0 :=
      List.countP_eq_zero.mpr (fun o ho => by simp [hall o ho])
    simp only [phaseSummary, hreq, herr, hcount]
    simp [jsDiv, jsMul, hlen]
  · intro hall
    have hcount : os.countP (fun o => ! settledSuccess o) = os.length :=
      List.countP_eq_length.mpr (fun o ho => by simp [hall o ho])
    simp only [phaseSummary, hreq, herr, hcount]
    simp [jsDiv, jsMul, hlen, div_self]

/-- C6, witness: a one-request all-success phase has error rate 0 and a
one-request all-failure phase has error rate 100. -/
theorem c6_error_rate_witness :
    (∃ pr, (runTest (Tester.new defaultConfig) 5 "5TPS"
          [Settled.resolved { statusCode := 200, responseTime := 5, body := "",
                              success := true }]).results
        = (Tester.new defaultConfig).results ++ [pr] ∧ pr.errorRate = JSNum.num 0) ∧
      ∃ pr, (runTest (Tester.new defaultConfig) 5 "5TPS"
          [Settled.rejected none]).results
        = (Tester.new defaultConfig).results ++ [pr] ∧ pr.errorRate = JSNum.num 100 := by
  constructor
  · obtain ⟨pr, hres, hall, -⟩ := c6_error_rate (Tester.new defaultConfig) 5 "5TPS"
      [Settled.resolved { statusCode := 200, responseTime := 5, body := "",
                          success := true }] (by simp)
    refine ⟨pr, hres, hall ?_⟩
    intro o ho
    simp only [List.mem_singleton] at ho
    subst ho
    rfl
  · obtain ⟨pr, hres, -, hall⟩ := c6_error_rate (Tester.new defaultConfig) 5 "5TPS"
      [Settled.rejected none] (by simp)
    refine ⟨pr, hres, hall ?_⟩
    intro o ho
    simp only [List.mem_singleton] at ho
    subst ho
    rfl

/-! ### Claim C7 -/

/-- The weighted array is the concatenation of one replicate-block per
scenario, in order. -/
theorem buildWeighted_eq_flatMap (ss : List Scenario) :
    buildWeighted ss = ss.flatMap (fun s => List.replicate s.weight s) := by
  suffices h : ∀ acc : List Scenario,
      ss.foldl (fun acc s => acc ++ List.replicate s.weight s) acc
        = acc ++ ss.flatMap (fun s => List.replicate s.weight s) by
    simpa [buildWeighted] using h []
  induction ss with
  | nil => simp
  | cons s rest ih =>
      intro acc
      simp [List.foldl_cons, ih, List.flatMap_cons, List.append_assoc]

/-- The weighted array's length is the sum of the weights. -/
theorem buildWeighted_length (ss : List Scenario) :
    (buildWeighted ss).length = (ss.map Scenario.weight).sum := by
  rw [buildWeighted_eq_flatMap]
  induction ss with
  | nil => rfl
  | cons s rest ih => simp [List.flatMap_cons, ih]

/-- In a duplicate-free scenario list, each scenario occurs in the weighted
array exactly `weight` times. -/
theorem buildWeighted_count (ss : List Scenario) :
    ss.Nodup → ∀ s ∈ ss, (buildWeighted ss).count s = s.weight := by
  rw [buildWeighted_eq_flatMap]
  induction ss with
  | nil => intro _ s hs; cases hs
  | cons u rest ih =>
      intro hnd s hs
      rw [List.flatMap_cons, List.count_append]
      rcases List.mem_cons.mp hs with rfl | hmem
      · have hnotin : s ∉ rest := (List.nodup_cons.mp hnd).1
        have hrest : (rest.flatMap fun v => List.replicate v.weight v).count s = 0 := by
          rw [List.count_eq_zero]
          intro hcon
          obtain ⟨v, hv, hrep⟩ := List.mem_flatMap.mp hcon
          exact hnotin (List.eq_of_mem_replicate hrep ▸ hv)
        simp [List.count_replicate, hrest]
      · have hne2 : s ≠ u := by
          rintro rfl
          exact (List.nodup_cons.mp hnd).1 hmem
        have hu : (List.replicate u.weight u).count s = 0 := by
          simp [List.count_replicate, Ne.symm hne2]
        rw [hu, ih (List.nodup_cons.mp hnd).2 s hmem]
        omega

/-- Every entry of the weighted array is one of the input scenarios. -/
theorem buildWeighted_mem (ss : List Scenario) (s : Scenario)
    (hs : s ∈ buildWeighted ss) : s ∈ ss := by
  rw [buildWeighted_eq_flatMap] at hs
  obtain ⟨v, hv, hrep⟩ := List.mem_flatMap.mp hs
  exact List.eq_of_mem_replicate hrep ▸ hv

/-- A uniform draw `r ∈ [0, 1)` selects a defined entry of any nonempty
table. -/
theorem selectScenario_mem (table : List Scenario) (r : ℚ) (_h0 : 0 ≤ r)
    (h1 : r < 1) (hne : table ≠ []) :
    ∃ s, selectScenario table r = some s ∧ s ∈ table := by
  have hlen : 0 < table.length := List.length_pos.mpr hne
  have hlenq : (0 : ℚ) < (table.length : ℚ) := by exact_mod_cast hlen
  have hx1 : r * (table.length : ℚ) < (table.length : ℚ) := by
    calc r * (table.length : ℚ) < 1 * (table.length : ℚ) :=
          mul_lt_mul_of_pos_right h1 hlenq
      _ = (table.length : ℚ) := one_mul _
  have hf1 : ⌊r * (table.length : ℚ)⌋ < (table.length : ℤ) := by
    rw [Int.floor_lt]
    exact_mod_cast hx1
  have hidx : (⌊r * (table.length : ℚ)⌋).toNat < table.length := by omega
  refine ⟨table.get ⟨_, hidx⟩, ?_, List.get_mem _ _ _⟩
  simp [selectScenario, List.get?_eq_get hidx]

/-- C7: for every nonempty, duplicate-free scenario list with positive
weights, the weighted table repeats each scenario exactly `weight` times in
order (so its length is the sum of the weights), every uniform draw
`r ∈ [0, 1)` selects a member scenario by index, and the fraction of table
slots holding a given scenario — its draw probability under a uniform index
— is `weight / Σ weights`. -/
theorem c7_weighted_table (ss : List Scenario) (hne : ss ≠ [])
    (hw : ∀ s ∈ ss, 0 < s.weight) (hnd : ss.Nodup) :
    buildWeighted ss = ss.flatMap (fun s => List.replicate s.weight s) ∧
      (buildWeighted ss).length = (ss.map Scenario.weight).sum ∧
      (∀ s ∈ ss, (buildWeighted ss).count s = s.weight) ∧
      (∀ r : ℚ, 0 ≤ r → r < 1 →
          ∃ s, selectScenario (buildWeighted ss) r = some s ∧ s ∈ ss) ∧
      (∀ s ∈ ss, ((buildWeighted ss).count s : ℚ) / ((buildWeighted ss).length : ℚ)
          = (s.weight : ℚ) / (((ss.map Scenario.weight).sum : ℕ) : ℚ)) := by
  have hpos : 0 < (buildWeighted ss).length := by
    rw [buildWeighted_length]
    cases ss with
    | nil => exact absurd rfl hne
    | cons s0 rest =>
        have h0 := hw s0 (List.mem_cons_self s0 rest)
        simp only [List.map_cons, List.sum_cons]
        omega
  have htable : buildWeighted ss ≠ [] := List.length_pos.mp hpos
  refine ⟨buildWeighted_eq_flatMap ss, buildWeighted_length ss,
    buildWeighted_count ss hnd, ?_, ?_⟩
  · intro r h0 h1
    obtain ⟨s, hsel, hmem⟩ := selectScenario_mem (buildWeighted ss) r h0 h1 htable
    exact ⟨s, hsel, buildWeighted_mem ss s hmem⟩
  · intro s hs
    rw [buildWeighted_count ss hnd s hs, buildWeighted_length ss]

/-- C7, witness: the table facts at the measured-phase scenario mix (summed
weight 100) and the concrete draw `r = 1/2`. -/
theorem c7_weighted_table_witness :
    (buildWeighted scenarios).length = (scenarios.map Scenario.weight).sum ∧
      (∀ s ∈ scenarios, (buildWeighted scenarios).count s = s.weight) ∧
      ∃ s, selectScenario (buildWeighted scenarios) (1 / 2) = some s ∧
        s ∈ scenarios := by
  have h := c7_weighted_table scenarios (by simp [scenarios]) (by decide) (by decide)
  exact ⟨h.2.1, h.2.2.1, h.2.2.2.1 (1 / 2) (by norm_num) (by norm_num)⟩

/-! ### Claim C8 -/

/-- C8: every settled request of a phase contributes exactly one entry to
that phase's collection, regardless of success: after the end-of-phase join
the request count, the number of recorded response times and the published
`totalRequests` all equal the number of dispatched requests, and the error
count never exceeds it. -/
theorem c8_one_entry_per_request (t : Tester) (tps : ℚ) (testName : String)
    (os : List Settled) :
    ((os.foldl recordOutcome
        { requestCount := 0, errorCount := 0, responseTimes := [] }).requestCount
          = os.length ∧
      (os.foldl recordOutcome
        { requestCount := 0, errorCount := 0, responseTimes := [] }).responseTimes.length
          = os.length ∧
      (os.foldl recordOutcome
        { requestCount := 0, errorCount := 0, responseTimes := [] }).errorCount
          ≤ os.length) ∧
      ∃ pr, (runTest t tps testName os).results = t.results ++ [pr] ∧
        pr.totalRequests = os.length ∧ pr.errorCount ≤ os.length ∧
        (runTest t tps testName os).responseTimes.length = os.length := by
  obtain ⟨h1, h2, h3⟩ := foldl_recordOutcome os
    { requestCount := 0, errorCount := 0, responseTimes := [] }
  have hcount : os.countP (fun o => ! settledSuccess o) ≤ os.length :=
    List.countP_le_length _
  refine ⟨⟨by simp [h1], by simp [h3], by simp [h2]; omega⟩,
    phaseSummary t.config tps testName os, runTest_results t tps testName os,
    ?_, ?_, ?_⟩
  · simp [phaseSummary, h1]
  · simp [phaseSummary, h2]
    omega
  · show (sortTimes (os.foldl recordOutcome
        { requestCount := 0, errorCount := 0, responseTimes := [] }).responseTimes).length
      = os.length
    rw [sortTimes, List.length_insertionSort, h3]
    simp

/-! ### Claim C9 -/

/-- C9: the warmup contributes nothing to the results list (`runWarmup`
returns the tester unchanged), and the full benchmark appends to the results
exactly one `PhaseResult` per swept TPS level, in sweep order (the list of
`targetTPS` values equals the level list), each computed independently from
only its own phase outcomes starting from freshly reset counters
(`sweepResults` summarizes phase i from `outs i` alone). -/
theorem c9_warmup_and_sweep (t : Tester) (baseUrl : String) (w : List Settled)
    (outs : ℕ → List Settled) :
    (runWarmup { t with config := { t.config with baseUrl := baseUrl } } w).1
        = { t with config := { t.config with baseUrl := baseUrl } } ∧
      (runFullBenchmark t baseUrl w outs).results
        = t.results
          ++ sweepResults { t.config with baseUrl := baseUrl } tpsLevels outs ∧
      (sweepResults { t.config with baseUrl := baseUrl } tpsLevels outs).length
        = tpsLevels.length ∧
      (sweepResults { t.config with baseUrl := baseUrl } tpsLevels outs).map
          PhaseResult.targetTPS
        = tpsLevels.map (fun tps => (tps : ℚ)) := by
  refine ⟨rfl, ?_, sweepResults_length _ _ _, sweepResults_targetTPS _ _ _⟩
  have h := runSweep_results tpsLevels
    { t with config := { t.config with baseUrl := baseUrl } } outs
  simpa [runFullBenchmark, runWarmup] using h

/-! ### Claim C10 -/

/-- C10: when a dispatched request rejects and its rejection value carries
no positive `responseTime` (absent or 0), the phase records a response time
of exactly 0 for it; concretely, a phase holding one genuine 5 ms success
and one such rejection gets `minResponseTime = 0` and `p50ResponseTime = 0`
(the zero deflates the low percentiles) while `maxResponseTime` stays 5. -/
theorem c10_zero_time (rt : Option ℚ) (h : rt = none ∨ rt = some 0) :
    (∀ st : PhaseState,
        (recordOutcome st (Settled.rejected rt)).responseTimes
          = st.responseTimes ++ [0]) ∧
      ∃ pr, (runTest (Tester.new defaultConfig) 5 "5TPS"
            [Settled.resolved { statusCode := 200, responseTime := 5, body := "",
                                success := true },
             Settled.rejected rt]).results = [pr] ∧
        pr.minResponseTime = 0 ∧ pr.p50ResponseTime = 0 ∧ pr.maxResponseTime = 5 := by
  have hz : jsOrDefault rt 0 = 0 := by
    rcases h with rfl | rfl <;> simp [jsOrDefault]
  have hsort : sortTimes [5, 0] = [0, 5] := by
    norm_num [sortTimes, List.insertionSort, List.orderedInsert]
  have hp50 : percentile 50 [(0 : ℚ), 5] = 0 := by
    have hk : ⌈(50 : ℚ) / 100 * (([(0 : ℚ), 5] : List ℚ).length : ℚ)⌉ = 1 := by
      rw [show (50 : ℚ) / 100 * (([(0 : ℚ), 5] : List ℚ).length : ℚ) = 1 by norm_num]
      exact Int.ceil_one
    rw [percentile_eval 50 _ 1 hk]
    rfl
  refine ⟨fun st => by simp [recordOutcome, hz], ?_⟩
  refine ⟨phaseSummary defaultConfig 5 "5TPS" _, rfl, ?_, ?_, ?_⟩ <;>
    simp [phaseSummary, recordOutcome, hz, hsort, hp50, calculateStats]

/-- C10, witness: the zero recording applied at the concrete rejection with
an absent response time. -/
theorem c10_zero_time_witness :
    (recordOutcome { requestCount := 0, errorCount := 0, responseTimes := [] }
        (Settled.rejected none)).responseTimes = [] ++ [0] :=
  (c10_zero_time none (Or.inl rfl)).1
    { requestCount := 0, errorCount := 0, responseTimes := [] }

end LoadTest
